import Mathlib

/-!
Verification of the quwa RAG server against its specification.

The development shallowly embeds the Rust sources:
* `src/server/src/rag/vector_store.rs` — the vector store and cosine similarity
  (`f32` values are idealised as real numbers; `Vec::sort_by` with the
  descending comparator is modelled by the stable `List.mergeSort`);
* `src/server/src/chat.rs` — the chat pipeline (`chatRun`), with every
  provider/network interaction supplied by an explicit environment record;
* `src/server/src/orphanet_loader.rs` — the corpus bulk loader;
* `src/server/src/request_counter.rs` — the shared request counter.
-/

/- ────────────────────────── vector_store.rs ────────────────────────── -/

/-- `VectorDocument` from `rag/vector_store.rs` (the BSON `ObjectId` is
modelled as an opaque optional string). -/
structure VectorDocument where
  id : Option String
  text : String
  embedding : List ℝ
  source_type : String
  source_id : String
  file_name : Option String
  orpha_code : Option String

/-- `DocumentMetadata` from `rag/vector_store.rs`. -/
structure DocumentMetadata where
  source_type : String
  source_id : String
  file_name : Option String
  orpha_code : Option String

/-- `cosine_similarity` from `rag/vector_store.rs` lines 123–137, with `f32`
idealised as `ℝ`: mismatched lengths give `0`, zero magnitudes give `0`,
otherwise the dot product divided by the product of magnitudes. -/
noncomputable def cosine_similarity (a b : List ℝ) : ℝ :=
  if a.length ≠ b.length then 0
  else
    let dot_product : ℝ := ((a.zip b).map (fun p => p.1 * p.2)).sum
    let magnitude_a : ℝ := Real.sqrt ((a.map (fun x => x * x)).sum)
    let magnitude_b : ℝ := Real.sqrt ((b.map (fun x => x * x)).sum)
    if magnitude_a = 0 ∨ magnitude_b = 0 then 0
    else dot_product / (magnitude_a * magnitude_b)

/-- Spec-side dot product `dot(a,b)` (from the spec's formula, for the
refinement statement of C2). -/
def dotProduct (a b : List ℝ) : ℝ :=
  ((a.zip b).map (fun p => p.1 * p.2)).sum

/-- Spec-side Euclidean magnitude `‖a‖` (from the spec's formula, for the
refinement statement of C2). -/
noncomputable def magnitude (a : List ℝ) : ℝ :=
  Real.sqrt ((a.map (fun x => x * x)).sum)

/-- The metadata the store returns with a search hit
(`rag/vector_store.rs` lines 91–96). -/
def metadataOf (d : VectorDocument) : DocumentMetadata :=
  { source_type := d.source_type
    source_id := d.source_id
    file_name := d.file_name
    orpha_code := d.orpha_code }

/-- A search hit: `(text, similarity, metadata)`. -/
abbrev SearchHit := String × ℝ × DocumentMetadata

/-- `RagVectorStore::search` from `rag/vector_store.rs` lines 73–108: score
every stored document by cosine similarity against the query, sort by
similarity highest-first (the Rust `sort_by` with comparator
`b.1.partial_cmp(&a.1)` is a stable descending sort, modelled by the stable
`List.mergeSort`), then truncate to `top_k`. -/
noncomputable def search (docs : List VectorDocument) (query_embedding : List ℝ)
    (top_k : ℕ) : List SearchHit :=
  let results : List SearchHit :=
    docs.map (fun d => (d.text, cosine_similarity query_embedding d.embedding, metadataOf d))
  (results.mergeSort (fun x y => decide (y.2.1 ≤ x.2.1))).take top_k

/-- `RagVectorStore::count_by_source` from `rag/vector_store.rs`
lines 114–119, over the in-memory collection model. -/
def count_by_source (store : List VectorDocument) (source_type : String) : ℕ :=
  (store.filter (fun d => d.source_type = source_type)).length

/-- `RagVectorStore::add_document` from `rag/vector_store.rs` lines 50–71:
inserts a fresh document built from the text, embedding and metadata; the
`id` argument is accepted and discarded exactly as in the source (the
inserted document carries `id: None`). -/
def add_document (store : List VectorDocument) (_id : String) (text : String)
    (embedding : List ℝ) (metadata : DocumentMetadata) : List VectorDocument :=
  store ++ [{ id := none
              text := text
              embedding := embedding
              source_type := metadata.source_type
              source_id := metadata.source_id
              file_name := metadata.file_name
              orpha_code := metadata.orpha_code }]

/- ──────────────────────────── chat.rs ──────────────────────────────── -/

/-- A chat-stream event (`chat.rs`: the four SSE event kinds `thinking`,
`response`, `source`, `done` with their payloads). -/
inductive Ev where
  | thinking (step : String)
  | response (content : String)
  | source (source_type source_id : String) (relevance : ℝ)
  | done

/-- Is the event a `thinking` event? -/
def Ev.isThinking : Ev → Bool
  | .thinking _ => true
  | _ => false

/-- Is the event a `response` event? -/
def Ev.isResponse : Ev → Bool
  | .response _ => true
  | _ => false

/-- Is the event a `source` event? -/
def Ev.isSource : Ev → Bool
  | .source _ _ _ => true
  | _ => false

/-- Is the event the terminal `done` event? -/
def Ev.isDone : Ev → Bool
  | .done => true
  | _ => false

/-- The fixed apologetic fallback response content (`chat.rs` line 347). -/
def fallbackAnswer : String :=
  "I couldn't generate a response right now. Please try again."

/-- Is the event the fixed apologetic fallback `response` event? -/
def Ev.isFallbackResponse : Ev → Bool
  | .response c => c = fallbackAnswer
  | _ => false

/-- An error coming back from a Gemini call, carrying the error message
(Rust `anyhow::Error` rendered to a string). -/
structure GemErr where
  msg : String

/-- Rust `str::contains` (substring test), executably: some split point of
the haystack starts with the pattern. -/
def strContains (hay pat : String) : Bool :=
  (List.range (hay.toList.length + 1)).any
    (fun i => (hay.toList.drop i).take pat.toList.length = pat.toList)

/-- The rate-limit classifier from `chat.rs` lines 296–298: the error text
contains `"429"`, `"rate_limit"` or `"Rate limit"`. -/
def rateLimited (e : GemErr) : Bool :=
  strContains e.msg "429" || strContains e.msg "rate_limit" || strContains e.msg "Rate limit"

/-- Pass-1 output `NormalizedQuery` (`chat.rs` lines 85–89). -/
structure NormalizedQuery where
  clinical_query : String
  key_symptoms : List String

/-- Pass-2 output `CandidateSelection` (`chat.rs` lines 92–97). -/
structure CandidateSelection where
  selected_index : ℕ
  reasoning : String

/-- Output of the decorative thinking call (`chat.rs` lines 79–82). -/
structure ThinkingOnlyOutput where
  thinking_steps : List String

/-- `RequestCounter` from `request_counter.rs` (the two atomic counters;
the start timestamp only feeds logging and is not modelled). -/
structure RequestCounter where
  embedding_count : ℕ
  chat_count : ℕ

/-- `RequestCounter::log_chat_request` (`request_counter.rs` lines 43–58):
atomically add one to the chat counter and return the new value; the
operation is infallible. -/
def RequestCounter.log_chat_request (c : RequestCounter) : RequestCounter × ℕ :=
  ({ c with chat_count := c.chat_count + 1 }, c.chat_count + 1)

/-- `RequestCounter::total_requests` (`request_counter.rs` lines 68–70). -/
def RequestCounter.total_requests (c : RequestCounter) : ℕ :=
  c.embedding_count + c.chat_count

/-- The environment of one `chat_handler` run: the request payload plus the
outcome of every external interaction (Gemini calls, local embedding, the
vector store contents and whether the store query fails). The decorative
thinking call may be retried, so its outcome is indexed by attempt number. -/
structure ChatEnv where
  user_message : String
  normalize : Except GemErr NormalizedQuery
  enable_embeddings : Bool
  embedRes : Except GemErr (List ℝ)
  store : List VectorDocument
  searchFails : Bool
  rawSelect : Except GemErr (Int × String)
  thinkingCall : ℕ → Except GemErr ThinkingOnlyOutput
  answer : Except GemErr String

/-- The two opening `thinking` events (`chat.rs` lines 120–129). -/
def ackEvents : List Ev :=
  [Ev.thinking "Analyzing symptoms...",
   Ev.thinking "Normalizing to clinical terminology..."]

/-- The normalization step (`chat.rs` lines 131–155): on success emit a
key-symptoms `thinking` event when the list is non-empty; on failure fall
back to the raw message with no symptoms. -/
def normStep (env : ChatEnv) : List Ev × NormalizedQuery :=
  match env.normalize with
  | .ok n =>
      (if n.key_symptoms ≠ [] then
        [Ev.thinking ("Key symptoms: " ++ String.intercalate ", " n.key_symptoms)]
       else [], n)
  | .error _ =>
      ([], { clinical_query := env.user_message, key_symptoms := [] })

/-- The embedding step (`chat.rs` lines 158–183): when embeddings are
enabled, use the embedding service result, degrading to a 384-dimensional
zero vector (with a `thinking` notice) on failure; when disabled, use the
zero vector directly. -/
def embedStep (env : ChatEnv) : List Ev × List ℝ :=
  if env.enable_embeddings then
    match env.embedRes with
    | .ok emb => ([], emb)
    | .error _ =>
        ([Ev.thinking "Embedding failed, proceeding without vector context..."],
         List.replicate 384 (0 : ℝ))
  else ([], List.replicate 384 (0 : ℝ))

/-- The retrieval step (`chat.rs` lines 202–208): top-10 vector search,
degrading to the empty hit list if the store query fails. -/
noncomputable def ragResults (env : ChatEnv) : List SearchHit :=
  if env.searchFails then []
  else search env.store (embedStep env).2 10

/-- `call_gemini_select` (`chat.rs` lines 428–506) given the provider's raw
reply: an HTTP/transport failure propagates; a negative `selected_index`
fails JSON deserialization into `usize` and is likewise an error; an
in-range conversion is kept, with an out-of-range index clamped to 0
(lines 491–498). -/
def call_gemini_select (candidates : List SearchHit)
    (raw : Except GemErr (Int × String)) : Except GemErr CandidateSelection :=
  match raw with
  | .error e => .error e
  | .ok (i, reasoning) =>
      if i < 0 then .error { msg := "Failed to parse select JSON" }
      else
        let idx := i.toNat
        .ok { selected_index := if candidates.length ≤ idx then 0 else idx
              reasoning := reasoning }

/-- The selection step of the handler (`chat.rs` lines 218–243): skipped
when there are no hits; on success emit the AI-reasoning `thinking` event
and index into the hits (falling back to the first hit if the lookup
misses); on failure use the top vector result. -/
def selectStep (rag_results : List SearchHit)
    (raw : Except GemErr (Int × String)) : List Ev × Option SearchHit :=
  if rag_results.isEmpty then ([], none)
  else
    match call_gemini_select rag_results raw with
    | .ok sel =>
        ([Ev.thinking ("AI reasoning: " ++ sel.reasoning)],
         (rag_results.get? sel.selected_index).orElse (fun _ => rag_results.head?))
    | .error _ => ([], rag_results.head?)

/-- `MAX_THINKING_RETRIES` (`chat.rs` line 278). -/
def MAX_THINKING_RETRIES : ℕ := 3

/-- `THINKING_BASE_DELAY_MS` (`chat.rs` line 279). -/
def THINKING_BASE_DELAY_MS : ℕ := 1200

/-- What the decorative-thinking retry loop produced: the `thinking` events
emitted while waiting, the final steps (empty if every attempt failed), the
number of provider attempts made, and the sleeps performed. -/
structure LoopResult where
  events : List Ev
  thinking_steps : List String
  attempts : ℕ
  delays : List ℕ

/-- One unrolling of the retry loop of `chat.rs` lines 281–317, starting at
`attempt` with the given fuel (the loop bound): success takes the steps and
breaks; a rate-limited failure before the last attempt emits a wait
`thinking` event, sleeps `base × 2^attempt + jitter`, and retries; any
other failure (or the last attempt) breaks with no steps. -/
def thinkingLoopAux (call : ℕ → Except GemErr ThinkingOnlyOutput) :
    ℕ → ℕ → LoopResult
  | _, 0 => { events := [], thinking_steps := [], attempts := 0, delays := [] }
  | attempt, fuel + 1 =>
      match call attempt with
      | .ok output =>
          { events := [], thinking_steps := output.thinking_steps,
            attempts := 1, delays := [] }
      | .error e =>
          if rateLimited e ∧ attempt < MAX_THINKING_RETRIES - 1 then
            let jitter := ((attempt + 1) * 173) % 500
            let delay := THINKING_BASE_DELAY_MS * 2 ^ attempt + jitter
            let rest := thinkingLoopAux call (attempt + 1) fuel
            { events := Ev.thinking
                ("Rate limit hit, retrying in " ++ toString (delay / 1000) ++ "s...")
                :: rest.events
              thinking_steps := rest.thinking_steps
              attempts := rest.attempts + 1
              delays := delay :: rest.delays }
          else { events := [], thinking_steps := [], attempts := 1, delays := [] }

/-- The full retry loop `for attempt in 0..MAX_THINKING_RETRIES`
(`chat.rs` lines 281–317). -/
def thinkingLoop (call : ℕ → Except GemErr ThinkingOnlyOutput) : LoopResult :=
  thinkingLoopAux call 0 MAX_THINKING_RETRIES

/-- Rust `str::trim` modelled executably: strip leading and trailing
whitespace characters. -/
def strTrim (s : String) : String :=
  ⟨((s.toList.dropWhile Char.isWhitespace).reverse.dropWhile Char.isWhitespace).reverse⟩

/-- The final-answer step (`chat.rs` lines 327–351): on success emit the
content as one `response` event unless it trims to empty (then emit
nothing); on failure emit the fixed apologetic `response` event. -/
def answerEvents (env : ChatEnv) : List Ev :=
  match env.answer with
  | .ok content => if strTrim content = "" then [] else [Ev.response content]
  | .error _ => [Ev.response fallbackAnswer]

/-- The attribution step (`chat.rs` lines 354–363): a `source` event for
each of the first three retrieval hits. -/
noncomputable def sourceEvents (env : ChatEnv) : List Ev :=
  ((ragResults env).take 3).map
    (fun h => Ev.source h.2.2.source_type h.2.2.source_id h.2.1)

/-- The outcome of one `chat_handler` run: the ordered event stream, the
request counter after the run, the number of Gemini calls made, and the
selected best match. -/
structure ChatRun where
  events : List Ev
  counter : RequestCounter
  geminiCalls : ℕ
  selected : Option SearchHit

/-- One full run of `chat_handler` (`chat.rs` lines 101–372), assembling the
steps in source order.  The user-files lookup (lines 191–200) emits no
events and its result is unused, and prompt assembly (lines 246–271) only
shapes strings sent to the provider, so neither is modelled.  Gemini calls
counted: normalize, select (only when hits are non-empty), each thinking
attempt, and the final answer. -/
noncomputable def chatRun (env : ChatEnv) (counter : RequestCounter) : ChatRun :=
  let norm := normStep env
  let emb := embedStep env
  let rag := ragResults env
  let foundEv := [Ev.thinking ("Found " ++ toString rag.length
      ++ " candidate conditions, selecting best match...")]
  let sel := selectStep rag env.rawSelect
  let counter1 := (counter.log_chat_request).1
  let loop := thinkingLoop env.thinkingCall
  let stepEvents := (loop.thinking_steps.take 6).map Ev.thinking
  { events :=
      ackEvents ++ norm.1
        ++ [Ev.thinking "Generating semantic embedding..."] ++ emb.1
        ++ [Ev.thinking "Searching medical knowledge base..."] ++ foundEv
        ++ sel.1 ++ loop.events ++ stepEvents
        ++ answerEvents env ++ sourceEvents env ++ [Ev.done]
    counter := counter1
    geminiCalls := 1 + (if rag.isEmpty then 0 else 1) + loop.attempts + 1
    selected := sel.2 }

/- ───────────────────── orphanet_loader.rs / orphanet.rs ─────────────── -/

/-- `HPOAssociation` from `processing/orphanet.rs`. -/
structure HPOAssociation where
  hpo_id : String
  hpo_term : String
  frequency : String

/-- `OrphanetDisorder` from `processing/orphanet.rs`. -/
structure OrphanetDisorder where
  orpha_code : String
  name : String
  hpo_associations : List HPOAssociation

/-- `OrphanetDisorder::to_embedable_text` (`processing/orphanet.rs`
lines 22–36): the disease header followed by one line per HPO
association. -/
def OrphanetDisorder.to_embedable_text (d : OrphanetDisorder) : String :=
  "Disease: " ++ d.name ++ " (Orpha: " ++ d.orpha_code
    ++ ")\n\nClinical Signs and Symptoms:\n"
    ++ String.join (d.hpo_associations.map
        (fun a => "- " ++ a.hpo_term ++ " (" ++ a.frequency ++ ") [" ++ a.hpo_id ++ "]\n"))

/-- Rust `slice::chunks(n)` for `n > 0`: split a list into consecutive
chunks of size at most `n`, last chunk possibly shorter. -/
def chunksOf (n : ℕ) : List α → List (List α)
  | [] => []
  | x :: xs =>
      if n = 0 then [x :: xs]
      else (x :: xs).take n :: chunksOf n ((x :: xs).drop n)
  termination_by l => l.length
  decreasing_by
    simp only [List.length_drop, List.length_cons]
    omega

/-- The external effects the loader depends on: reading and parsing the XML
dataset, and batch embedding generation. -/
structure LoaderEnv where
  parse_xml : Except GemErr (List OrphanetDisorder)
  embed_batch : List String → Except GemErr (List (List ℝ))

/-- `BATCH_SIZE` (`orphanet_loader.rs` line 43). -/
def BATCH_SIZE : ℕ := 50

/-- The batch loop of `load_orphanet_data` (`orphanet_loader.rs`
lines 46–90): embed each chunk of disorders, aborting with the error if a
batch embedding fails (keeping the inserts already made), and otherwise
insert one document per zipped `(disorder, embedding)` pair, counting the
insertions. -/
def loadBatches (env : LoaderEnv) :
    List VectorDocument → List (List OrphanetDisorder) → ℕ →
    List VectorDocument × Except GemErr ℕ
  | store, [], total => (store, .ok total)
  | store, chunk :: rest, total =>
      let batch_texts := chunk.map (fun d => d.to_embedable_text)
      match env.embed_batch batch_texts with
      | .error e => (store, .error e)
      | .ok embeddings =>
          let pairs := chunk.zip embeddings
          let store1 := pairs.foldl
            (fun s p =>
              add_document s ("orphanet_" ++ p.1.orpha_code)
                p.1.to_embedable_text p.2
                { source_type := "orphadata"
                  source_id := p.1.orpha_code
                  file_name := none
                  orpha_code := some p.1.orpha_code }) store
          loadBatches env store1 rest (total + pairs.length)

/-- `load_orphanet_data` (`orphanet_loader.rs` lines 9–98): if the store
already holds documents with source type `"orphadata"`, return that count
and insert nothing; otherwise parse the XML and bulk-insert every disorder
in batches of `BATCH_SIZE`.  Returns the resulting store contents together
with the function's `Result`. -/
def load_orphanet_data (store : List VectorDocument) (env : LoaderEnv) :
    List VectorDocument × Except GemErr ℕ :=
  let existing_count := count_by_source store "orphadata"
  if 0 < existing_count then (store, .ok existing_count)
  else
    match env.parse_xml with
    | .error e => (store, .error e)
    | .ok disorders => loadBatches env store (chunksOf BATCH_SIZE disorders) 0


/- ───────────────── concrete inputs used by witnesses ───────────────── -/

/-- A unit-sphere document with first embedding coordinate `x`, used to
realise a prescribed cosine similarity against the query `[1, 0]`. -/
noncomputable def docSim (name : String) (x : ℝ) : VectorDocument :=
  { id := none
    text := name
    embedding := [x, Real.sqrt (1 - x * x)]
    source_type := "orphadata"
    source_id := name
    file_name := none
    orpha_code := none }

/-- Concrete two-element hit list for the C4 witness. -/
noncomputable def wHits : List SearchHit :=
  [("a", (9 : ℝ) / 10, ⟨"orphadata", "1", none, none⟩),
   ("b", (1 : ℝ) / 2, ⟨"orphadata", "2", none, none⟩)]

/-- The concrete attempt oracle for the C5 witness: two rate-limited
failures followed by success. -/
def wCall : ℕ → Except GemErr ThinkingOnlyOutput :=
  fun i => if i < 2 then .error ⟨"HTTP 429 Too Many Requests"⟩
           else .ok ⟨["reviewing candidate conditions"]⟩

/-- The concrete store for the C7 witness: one `"orphadata"` document is
already present. -/
def wStore : List VectorDocument :=
  [{ id := none
     text := "Disease: Alexander disease (Orpha: 58)"
     embedding := []
     source_type := "orphadata"
     source_id := "58"
     file_name := none
     orpha_code := some "58" }]

/-- A concrete loader environment for the C7 witness. -/
def wLoaderEnv : LoaderEnv :=
  { parse_xml := .error ⟨"Failed to read Orphanet XML file"⟩
    embed_batch := fun _ => .error ⟨"Failed to generate batch embeddings"⟩ }



/-- The concatenation of every event segment the handler emits before the
final-answer step; each is a (possibly empty) run of `thinking` events,
matching `chatRun` up to the answer step. -/
noncomputable def chatThinkingPrefix (env : ChatEnv) : List Ev :=
  ackEvents ++ (normStep env).1
    ++ [Ev.thinking "Generating semantic embedding..."] ++ (embedStep env).1
    ++ [Ev.thinking "Searching medical knowledge base..."]
    ++ [Ev.thinking ("Found " ++ toString (ragResults env).length
        ++ " candidate conditions, selecting best match...")]
    ++ (selectStep (ragResults env) env.rawSelect).1
    ++ (thinkingLoop env.thinkingCall).events
    ++ ((thinkingLoop env.thinkingCall).thinking_steps.take 6).map Ev.thinking

/-- A concrete pipeline environment over an empty store: normalization
fails, embeddings are disabled, the store is empty, the narration call
fails with a non-rate-limit error, and the final answer succeeds with
non-empty content. -/
def envA : ChatEnv :=
  { user_message := "persistent headache and blurry vision"
    normalize := .error { msg := "Gemini normalize error 500" }
    enable_embeddings := false
    embedRes := .error { msg := "unused" }
    store := []
    searchFails := false
    rawSelect := .error { msg := "unused" }
    thinkingCall := fun _ => .error { msg := "Gemini error 500" }
    answer := .ok "Based on the symptoms described, here is an answer." }

/-- `envA` with the final-answer call failing instead. -/
def envAFail : ChatEnv :=
  { envA with answer := .error { msg := "Gemini error 503" } }

/-- `envA` with the final-answer call succeeding with whitespace-only
content. -/
def envWS : ChatEnv :=
  { envA with answer := .ok "   " }


/- ─────────────────────────── helper lemmas ─────────────────────────── -/

theorem zip_self_map (a : List ℝ) :
    (a.zip a).map (fun p => p.1 * p.2) = a.map (fun x => x * x) := by
  induction a with
  | nil => rfl
  | cons x xs ih => simp [ih]

theorem sumsq_nonneg (a : List ℝ) : 0 ≤ (a.map (fun x => x * x)).sum := by
  refine List.sum_nonneg ?_
  intro y hy
  obtain ⟨x, -, rfl⟩ := List.mem_map.mp hy
  exact mul_self_nonneg x

theorem sumsq_pos (a : List ℝ) (h : ∃ x ∈ a, x ≠ 0) :
    0 < (a.map (fun x => x * x)).sum := by
  obtain ⟨x, hx, hne⟩ := h
  have h1 : x * x ≤ (a.map (fun x => x * x)).sum := by
    refine List.single_le_sum ?_ _ (List.mem_map_of_mem _ hx)
    intro y hy
    obtain ⟨z, -, rfl⟩ := List.mem_map.mp hy
    exact mul_self_nonneg z
  exact lt_of_lt_of_le (mul_self_pos.mpr hne) h1

theorem cosine_formula (a b : List ℝ) (hlen : a.length = b.length)
    (ha : magnitude a ≠ 0) (hb : magnitude b ≠ 0) :
    cosine_similarity a b = dotProduct a b / (magnitude a * magnitude b) := by
  simp only [cosine_similarity, dotProduct, magnitude] at *
  simp [hlen, ha, hb]

theorem cosine_degenerate (a b : List ℝ)
    (h : a.length ≠ b.length ∨ magnitude a = 0 ∨ magnitude b = 0) :
    cosine_similarity a b = 0 := by
  simp only [magnitude] at h
  rcases h with h | h | h
  · simp [cosine_similarity, h]
  · by_cases hlen : a.length = b.length <;> simp [cosine_similarity, hlen, h]
  · by_cases hlen : a.length = b.length <;> simp [cosine_similarity, hlen, h]

theorem cosine_self (a : List ℝ) (h : ∃ x ∈ a, x ≠ 0) :
    cosine_similarity a a = 1 := by
  have hpos := sumsq_pos a h
  have hroot : Real.sqrt ((a.map (fun x => x * x)).sum) ≠ 0 :=
    Real.sqrt_ne_zero'.mpr hpos
  simp only [cosine_similarity, ne_eq, not_true_eq_false, if_false, zip_self_map,
    hroot, or_self, Real.mul_self_sqrt hpos.le]
  exact div_self (ne_of_gt hpos)

theorem cosine_unit (x : ℝ) (h0 : 0 < x) (h1 : x ≤ 1) :
    cosine_similarity [1, 0] [x, Real.sqrt (1 - x * x)] = x := by
  have hs : Real.sqrt (1 - x * x) * Real.sqrt (1 - x * x) = 1 - x * x :=
    Real.mul_self_sqrt (by nlinarith)
  simp only [cosine_similarity]
  norm_num [hs]

/- ─────────────────────────────── C2 ────────────────────────────────── -/

/-- C2: `cosine_similarity(a, b)` equals `dot(a,b) / (‖a‖·‖b‖)` for
equal-length vectors of non-zero magnitude; it returns `0` (it is a total
function, never an error) whenever the lengths differ or either magnitude
is zero; and for every non-zero vector `a`, `cosine_similarity(a, a) = 1`
(exactly, in the real-number idealisation of `f32`). -/
theorem cosine_similarity_spec :
    (∀ a b : List ℝ, a.length = b.length → magnitude a ≠ 0 → magnitude b ≠ 0 →
        cosine_similarity a b = dotProduct a b / (magnitude a * magnitude b))
    ∧ (∀ a b : List ℝ, a.length ≠ b.length ∨ magnitude a = 0 ∨ magnitude b = 0 →
        cosine_similarity a b = 0)
    ∧ (∀ a : List ℝ, (∃ x ∈ a, x ≠ 0) → cosine_similarity a a = 1) :=
  ⟨cosine_formula, cosine_degenerate, cosine_self⟩

/-- Witness for C2 at concrete inputs: `[3, 4]` is a non-zero vector and
has cosine similarity `1` with itself, and the mismatched-length pair
`([3, 4], [3])` gets similarity `0`. -/
theorem cosine_similarity_spec_witness :
    ((∃ x ∈ [(3 : ℝ), 4], x ≠ 0) ∧ cosine_similarity [(3 : ℝ), 4] [3, 4] = 1)
    ∧ (([(3 : ℝ), 4].length ≠ [(3 : ℝ)].length
          ∨ magnitude [(3 : ℝ), 4] = 0 ∨ magnitude [(3 : ℝ)] = 0)
        ∧ cosine_similarity [(3 : ℝ), 4] [(3 : ℝ)] = 0) :=
  ⟨⟨⟨3, by simp, by norm_num⟩,
    cosine_similarity_spec.2.2 [(3 : ℝ), 4] ⟨3, by simp, by norm_num⟩⟩,
   ⟨Or.inl (by simp),
    cosine_similarity_spec.2.1 [(3 : ℝ), 4] [(3 : ℝ)] (Or.inl (by simp))⟩⟩

/- ─────────────────────────────── C1 ────────────────────────────────── -/

theorem search_sorted_desc (docs : List VectorDocument) (q : List ℝ) (k : ℕ) :
    List.Pairwise (fun x y : SearchHit => y.2.1 ≤ x.2.1) (search docs q k) := by
  refine List.Pairwise.sublist (List.take_sublist _ _) ?_
  have h := @List.sorted_mergeSort SearchHit
    (fun x y : SearchHit => decide (y.2.1 ≤ x.2.1))
    (fun a b c hab hbc => by
      simp only [decide_eq_true_eq] at *
      exact le_trans hbc hab)
    (fun a b => by simpa using le_total b.2.1 a.2.1)
    (docs.map (fun d => (d.text, cosine_similarity q d.embedding, metadataOf d)))
  exact h.imp (fun h => by simpa using h)

theorem search_length_le (docs : List VectorDocument) (q : List ℝ) (k : ℕ) :
    (search docs q k).length ≤ k := by
  simp only [search, List.length_take]
  exact min_le_left _ _

/-- C1: `search(q, k)` always returns at most `k` hits, sorted by
non-increasing similarity; and for a store of exactly three documents whose
cosine similarities to `q` are `0.9`, `0.5`, `0.2`, `search(q, 2)` returns
exactly the two most-similar documents, most similar first. -/
theorem search_topk_sorted_and_scenarioB :
    (∀ (docs : List VectorDocument) (q : List ℝ) (k : ℕ),
        (search docs q k).length ≤ k
        ∧ List.Pairwise (fun x y : SearchHit => y.2.1 ≤ x.2.1) (search docs q k))
    ∧ (∀ (q : List ℝ) (d1 d2 d3 : VectorDocument),
        cosine_similarity q d1.embedding = 0.9 →
        cosine_similarity q d2.embedding = 0.5 →
        cosine_similarity q d3.embedding = 0.2 →
        search [d1, d2, d3] q 2 =
          [(d1.text, 0.9, metadataOf d1), (d2.text, 0.5, metadataOf d2)]) := by
  constructor
  · exact fun docs q k => ⟨search_length_le docs q k, search_sorted_desc docs q k⟩
  · intro q d1 d2 d3 h1 h2 h3
    simp only [search, List.map, h1, h2, h3]
    rw [List.mergeSort_of_sorted (by simp [List.pairwise_cons]; norm_num)]
    rfl

/-- Witness for C1 (Scenario B) at concrete inputs: three unit vectors with
cosine similarities `0.9`, `0.5`, `0.2` to the query `[1, 0]`; `search`
with `k = 2` returns the two most similar, in order. -/
theorem search_topk_sorted_and_scenarioB_witness :
    cosine_similarity [1, 0] (docSim "A" (9 / 10)).embedding = 0.9
    ∧ cosine_similarity [1, 0] (docSim "B" (1 / 2)).embedding = 0.5
    ∧ cosine_similarity [1, 0] (docSim "C" (1 / 5)).embedding = 0.2
    ∧ search [docSim "A" (9 / 10), docSim "B" (1 / 2), docSim "C" (1 / 5)] [1, 0] 2 =
        [((docSim "A" (9 / 10)).text, 0.9, metadataOf (docSim "A" (9 / 10))),
         ((docSim "B" (1 / 2)).text, 0.5, metadataOf (docSim "B" (1 / 2)))] := by
  have hA : cosine_similarity [1, 0] (docSim "A" (9 / 10)).embedding = 0.9 := by
    have h := cosine_unit (9 / 10) (by norm_num) (by norm_num)
    simp only [docSim]
    rw [h]; norm_num
  have hB : cosine_similarity [1, 0] (docSim "B" (1 / 2)).embedding = 0.5 := by
    have h := cosine_unit (1 / 2) (by norm_num) (by norm_num)
    simp only [docSim]
    rw [h]; norm_num
  have hC : cosine_similarity [1, 0] (docSim "C" (1 / 5)).embedding = 0.2 := by
    have h := cosine_unit (1 / 5) (by norm_num) (by norm_num)
    simp only [docSim]
    rw [h]; norm_num
  exact ⟨hA, hB, hC, search_topk_sorted_and_scenarioB.2 [1, 0] _ _ _ hA hB hC⟩

/- ─────────────────────────────── C4 ────────────────────────────────── -/

theorem orElse_head_mem (hits : List SearchHit) (hne : hits ≠ []) (idx : ℕ) :
    ∃ x, ((hits.get? idx).orElse (fun _ => hits.head?)) = some x ∧ x ∈ hits := by
  cases h : hits.get? idx with
  | some v =>
      exact ⟨v, by simp [h], List.get?_mem h⟩
  | none =>
      obtain ⟨y, t, rfl⟩ := List.exists_cons_of_ne_nil hne
      exact ⟨y, by simp [h], List.mem_cons_self _ _⟩

theorem head_is_max (hits : List SearchHit) (h0 : SearchHit)
    (hh : hits.head? = some h0)
    (hsorted : List.Pairwise (fun x y : SearchHit => y.2.1 ≤ x.2.1) hits) :
    ∀ x ∈ hits, x.2.1 ≤ h0.2.1 := by
  have hne : hits ≠ [] := by
    intro hnil
    rw [hnil] at hh
    simp at hh
  obtain ⟨y, t, rfl⟩ := List.exists_cons_of_ne_nil hne
  simp only [List.head?_cons, Option.some.injEq] at hh
  subst hh
  intro x hx
  rcases List.mem_cons.mp hx with rfl | hx
  · exact le_refl _
  · exact (List.pairwise_cons.mp hsorted).1 x hx

/-- C4: whenever the hit list is non-empty, the selection step always
yields a selected match that is an element of the hit list, whatever
integer the provider returns; a provider failure, an out-of-range
(clamped-to-0) index, and a negative index (which fails `usize`
deserialization) all default to the first hit, which is the
highest-similarity hit whenever the list is sorted by non-increasing
similarity (as `search` guarantees). -/
theorem selection_always_valid (hits : List SearchHit)
    (raw : Except GemErr (Int × String)) (hne : hits ≠ []) :
    (∃ h, (selectStep hits raw).2 = some h ∧ h ∈ hits)
    ∧ (∀ e, raw = .error e →
        (selectStep hits raw).2 = hits.head?
        ∧ ∀ h0, hits.head? = some h0 →
            List.Pairwise (fun x y : SearchHit => y.2.1 ≤ x.2.1) hits →
            ∀ x ∈ hits, x.2.1 ≤ h0.2.1)
    ∧ (∀ i r, raw = .ok (i, r) → (hits.length : Int) ≤ i →
        (selectStep hits raw).2 = hits.head?)
    ∧ (∀ i r, raw = .ok (i, r) → i < 0 →
        (selectStep hits raw).2 = hits.head?) := by
  obtain ⟨h0, t, rfl⟩ := List.exists_cons_of_ne_nil hne
  refine ⟨?_, ?_, ?_, ?_⟩
  · cases raw with
    | error e =>
        exact ⟨h0, by simp [selectStep, call_gemini_select], List.mem_cons_self _ _⟩
    | ok p =>
        obtain ⟨i, r⟩ := p
        by_cases hi : i < 0
        · exact ⟨h0, by simp [selectStep, call_gemini_select, hi], List.mem_cons_self _ _⟩
        · obtain ⟨x, hx, hmem⟩ := orElse_head_mem (h0 :: t) hne
            (if (h0 :: t).length ≤ i.toNat then 0 else i.toNat)
          exact ⟨x, by simpa [selectStep, call_gemini_select, hi] using hx, hmem⟩
  · rintro e rfl
    refine ⟨by simp [selectStep, call_gemini_select], ?_⟩
    rintro h0' hh hsorted
    exact head_is_max _ h0' hh hsorted
  · rintro i r rfl hlen
    have hi : ¬ i < 0 := by omega
    have hclamp : t.length + 1 ≤ i.toNat := by
      simp only [List.length_cons] at hlen
      omega
    simp [selectStep, call_gemini_select, hi, hclamp]
  · rintro i r rfl hi
    simp [selectStep, call_gemini_select, hi]

/-- Witness for C4: on a non-empty two-hit list with the provider returning
the oversized index `99`, the selection properties hold. -/
theorem selection_always_valid_witness :
    wHits ≠ [] ∧
    ((∃ h, (selectStep wHits (.ok (99, "r"))).2 = some h ∧ h ∈ wHits)
     ∧ (∀ e, (.ok (99, "r") : Except GemErr (Int × String)) = .error e →
         (selectStep wHits (.ok (99, "r"))).2 = wHits.head?
         ∧ ∀ h0, wHits.head? = some h0 →
             List.Pairwise (fun x y : SearchHit => y.2.1 ≤ x.2.1) wHits →
             ∀ x ∈ wHits, x.2.1 ≤ h0.2.1)
     ∧ (∀ i r, (.ok (99, "r") : Except GemErr (Int × String)) = .ok (i, r) →
         (wHits.length : Int) ≤ i →
         (selectStep wHits (.ok (99, "r"))).2 = wHits.head?)
     ∧ (∀ i r, (.ok (99, "r") : Except GemErr (Int × String)) = .ok (i, r) → i < 0 →
         (selectStep wHits (.ok (99, "r"))).2 = wHits.head?)) :=
  ⟨by simp [wHits], selection_always_valid wHits (.ok (99, "r")) (by simp [wHits])⟩

/- ─────────────────────────────── C5 ────────────────────────────────── -/

/-- C5: the narration retry loop makes exactly `N` provider attempts when
the first `N − 1` attempts fail rate-limited and attempt `N` succeeds
(`N ≤ 3`), with the sleeps before the retries equal to
`base × 2^attempt + jitter(attempt)`; and it stops immediately (no further
attempts, no narration steps) when an attempt fails with a non-rate-limit
error. -/
theorem thinking_retry_attempts :
    (∀ (call : ℕ → Except GemErr ThinkingOnlyOutput) (N : ℕ),
        1 ≤ N → N ≤ MAX_THINKING_RETRIES →
        (∀ i, i < N - 1 → ∃ e, call i = .error e ∧ rateLimited e = true) →
        (∃ output, call (N - 1) = .ok output) →
        (thinkingLoop call).attempts = N
        ∧ (thinkingLoop call).delays =
            (List.range (N - 1)).map
              (fun a => THINKING_BASE_DELAY_MS * 2 ^ a + ((a + 1) * 173) % 500))
    ∧ (∀ (call : ℕ → Except GemErr ThinkingOnlyOutput) (i : ℕ) (e : GemErr),
        i < MAX_THINKING_RETRIES →
        (∀ j, j < i → ∃ e', call j = .error e' ∧ rateLimited e' = true) →
        call i = .error e → rateLimited e = false →
        (thinkingLoop call).attempts = i + 1
        ∧ (thinkingLoop call).thinking_steps = []) := by
  constructor
  · intro call N h1 h3 herr hsucc
    simp only [MAX_THINKING_RETRIES] at h3
    interval_cases N
    · obtain ⟨output, hc0⟩ := hsucc
      simp [thinkingLoop, thinkingLoopAux, MAX_THINKING_RETRIES, hc0]
    · obtain ⟨e0, hc0, hrl0⟩ := herr 0 (by norm_num)
      obtain ⟨output, hc1⟩ := hsucc
      simp [thinkingLoop, thinkingLoopAux, MAX_THINKING_RETRIES,
        THINKING_BASE_DELAY_MS, hc0, hc1, hrl0, List.range_succ]
    · obtain ⟨e0, hc0, hrl0⟩ := herr 0 (by norm_num)
      obtain ⟨e1, hc1, hrl1⟩ := herr 1 (by norm_num)
      obtain ⟨output, hc2⟩ := hsucc
      simp [thinkingLoop, thinkingLoopAux, MAX_THINKING_RETRIES,
        THINKING_BASE_DELAY_MS, hc0, hc1, hc2, hrl0, hrl1, List.range_succ]
  · intro call i e hi hprev hc hrl
    simp only [MAX_THINKING_RETRIES] at hi
    interval_cases i
    · simp [thinkingLoop, thinkingLoopAux, MAX_THINKING_RETRIES, hc, hrl]
    · obtain ⟨e0, hc0, hrl0⟩ := hprev 0 (by norm_num)
      simp [thinkingLoop, thinkingLoopAux, MAX_THINKING_RETRIES, hc0, hc, hrl0, hrl]
    · obtain ⟨e0, hc0, hrl0⟩ := hprev 0 (by norm_num)
      obtain ⟨e1, hc1, hrl1⟩ := hprev 1 (by norm_num)
      simp [thinkingLoop, thinkingLoopAux, MAX_THINKING_RETRIES, hc0, hc1, hc, hrl0, hrl1, hrl]

/-- Witness for C5: with two rate-limited failures then a success, the loop
makes exactly 3 attempts and sleeps the two prescribed backoff delays. -/
theorem thinking_retry_attempts_witness :
    (1 ≤ 3) ∧ (3 ≤ MAX_THINKING_RETRIES)
    ∧ (∀ i, i < 3 - 1 → ∃ e, wCall i = .error e ∧ rateLimited e = true)
    ∧ (∃ output, wCall (3 - 1) = .ok output)
    ∧ (thinkingLoop wCall).attempts = 3
    ∧ (thinkingLoop wCall).delays =
        (List.range (3 - 1)).map
          (fun a => THINKING_BASE_DELAY_MS * 2 ^ a + ((a + 1) * 173) % 500) := by
  have h := thinking_retry_attempts.1 wCall 3 (by norm_num)
    (by norm_num [MAX_THINKING_RETRIES])
    (by
      intro i hi
      interval_cases i
      · exact ⟨⟨"HTTP 429 Too Many Requests"⟩, rfl, by decide⟩
      · exact ⟨⟨"HTTP 429 Too Many Requests"⟩, rfl, by decide⟩)
    ⟨⟨["reviewing candidate conditions"]⟩, rfl⟩
  refine ⟨by norm_num, by norm_num [MAX_THINKING_RETRIES], ?_, ?_, h.1, h.2⟩
  · intro i hi
    interval_cases i
    · exact ⟨⟨"HTTP 429 Too Many Requests"⟩, rfl, by decide⟩
    · exact ⟨⟨"HTTP 429 Too Many Requests"⟩, rfl, by decide⟩
  · exact ⟨⟨["reviewing candidate conditions"]⟩, rfl⟩

/- ─────────────────────────────── C7 ────────────────────────────────── -/

theorem count_add_document (s : List VectorDocument) (i t : String)
    (emb : List ℝ) (md : DocumentMetadata) (st : String) (h : md.source_type = st) :
    count_by_source (add_document s i t emb md) st = count_by_source s st + 1 := by
  simp [count_by_source, add_document, List.filter_append, h]

theorem count_orphadata_foldl (pairs : List (OrphanetDisorder × List ℝ))
    (s : List VectorDocument) :
    count_by_source
      (pairs.foldl
        (fun s p =>
          add_document s ("orphanet_" ++ p.1.orpha_code)
            p.1.to_embedable_text p.2
            { source_type := "orphadata"
              source_id := p.1.orpha_code
              file_name := none
              orpha_code := some p.1.orpha_code }) s) "orphadata"
    = count_by_source s "orphadata" + pairs.length := by
  induction pairs generalizing s with
  | nil => simp
  | cons p ps ih =>
      rw [List.foldl_cons, ih, count_add_document]
      · simp only [List.length_cons]
        omega
      · rfl

theorem loadBatches_count (env : LoaderEnv)
    (chunks : List (List OrphanetDisorder)) :
    ∀ (s s' : List VectorDocument) (t n : ℕ),
      loadBatches env s chunks t = (s', .ok n) →
      count_by_source s' "orphadata" + t = count_by_source s "orphadata" + n := by
  induction chunks with
  | nil =>
      intro s s' t n h
      simp only [loadBatches, Prod.mk.injEq, Except.ok.injEq] at h
      obtain ⟨rfl, rfl⟩ := h
      rfl
  | cons chunk rest ih =>
      intro s s' t n h
      simp only [loadBatches] at h
      cases hemb : env.embed_batch (chunk.map (fun d => d.to_embedable_text)) with
      | error e =>
          rw [hemb] at h
          simp at h
      | ok embeddings =>
          rw [hemb] at h
          have := ih _ _ _ _ h
          rw [count_orphadata_foldl] at this
          omega

/-- C7: the corpus bulk loader is idempotent.  Whenever the store already
reports a positive `count_by_source("orphadata")`, the loader performs zero
inserts (the store is returned unchanged) and reports that count; in
particular, a second call after any first call that successfully inserted a
positive number of documents performs zero additional inserts. -/
theorem orphanet_loader_idempotent :
    (∀ (store : List VectorDocument) (env : LoaderEnv),
        0 < count_by_source store "orphadata" →
        load_orphanet_data store env = (store, .ok (count_by_source store "orphadata")))
    ∧ (∀ (store : List VectorDocument) (env env2 : LoaderEnv)
        (store1 : List VectorDocument) (n : ℕ),
        load_orphanet_data store env = (store1, .ok n) → 0 < n →
        load_orphanet_data store1 env2
          = (store1, .ok (count_by_source store1 "orphadata"))) := by
  have skip : ∀ (store : List VectorDocument) (env : LoaderEnv),
      0 < count_by_source store "orphadata" →
      load_orphanet_data store env = (store, .ok (count_by_source store "orphadata")) := by
    intro store env h
    simp [load_orphanet_data, h]
  refine ⟨skip, ?_⟩
  intro store env env2 store1 n hload hn
  by_cases h : 0 < count_by_source store "orphadata"
  · rw [skip store env h] at hload
    simp only [Prod.mk.injEq, Except.ok.injEq] at hload
    obtain ⟨rfl, rfl⟩ := hload
    exact skip store env2 h
  · have hzero : count_by_source store "orphadata" = 0 := by omega
    simp only [load_orphanet_data, hzero, lt_self_iff_false, if_false] at hload
    cases hx : env.parse_xml with
    | error e =>
        rw [hx] at hload
        simp at hload
    | ok disorders =>
        rw [hx] at hload
        have hcount := loadBatches_count env (chunksOf BATCH_SIZE disorders)
          store store1 0 n hload
        have : 0 < count_by_source store1 "orphadata" := by omega
        exact skip store1 env2 this

/-- Witness for C7: against a store already holding one `"orphadata"`
document, the loader returns the store unchanged with that count. -/
theorem orphanet_loader_idempotent_witness :
    0 < count_by_source wStore "orphadata"
    ∧ load_orphanet_data wStore wLoaderEnv
        = (wStore, .ok (count_by_source wStore "orphadata")) :=
  ⟨by decide, orphanet_loader_idempotent.1 wStore wLoaderEnv (by decide)⟩

/- ──────────────────── chat stream structure lemmas ─────────────────── -/

theorem chatRun_events_decomp (env : ChatEnv) (c : RequestCounter) :
    (chatRun env c).events
      = chatThinkingPrefix env ++ answerEvents env ++ sourceEvents env ++ [Ev.done] := by
  simp [chatRun, chatThinkingPrefix, List.append_assoc]

theorem ackEvents_thinking : ∀ e ∈ ackEvents, e.isThinking = true := by decide

theorem normStep_thinking (env : ChatEnv) :
    ∀ e ∈ (normStep env).1, e.isThinking = true := by
  intro e he
  unfold normStep at he
  cases hn : env.normalize with
  | ok n =>
      rw [hn] at he
      by_cases hk : n.key_symptoms = []
      · simp [hk] at he
      · simp [hk] at he
        subst he
        rfl
  | error err =>
      rw [hn] at he
      simp at he

theorem embedStep_thinking (env : ChatEnv) :
    ∀ e ∈ (embedStep env).1, e.isThinking = true := by
  intro e he
  unfold embedStep at he
  by_cases hen : env.enable_embeddings
  · rw [if_pos hen] at he
    cases hr : env.embedRes with
    | ok emb =>
        rw [hr] at he
        change e ∈ ([] : List Ev) at he
        simp at he
    | error err =>
        rw [hr] at he
        change e ∈ [Ev.thinking "Embedding failed, proceeding without vector context..."] at he
        simp only [List.mem_singleton] at he
        subst he
        rfl
  · rw [if_neg hen] at he
    change e ∈ ([] : List Ev) at he
    simp at he

theorem selectStep_thinking (hits : List SearchHit) (raw : Except GemErr (Int × String)) :
    ∀ e ∈ (selectStep hits raw).1, e.isThinking = true := by
  intro e he
  unfold selectStep at he
  by_cases hemp : hits.isEmpty
  · simp [hemp] at he
  · simp only [hemp, Bool.false_eq_true, if_false] at he
    cases hc : call_gemini_select hits raw with
    | ok sel =>
        rw [hc] at he
        simp at he
        subst he
        rfl
    | error err =>
        rw [hc] at he
        simp at he

theorem loopAux_events_thinking (call : ℕ → Except GemErr ThinkingOnlyOutput) :
    ∀ (fuel attempt : ℕ), ∀ e ∈ (thinkingLoopAux call attempt fuel).events,
      e.isThinking = true := by
  intro fuel
  induction fuel with
  | zero =>
      intro attempt e he
      simp [thinkingLoopAux] at he
  | succ n ih =>
      intro attempt e he
      unfold thinkingLoopAux at he
      cases hc : call attempt with
      | ok output =>
          rw [hc] at he
          simp at he
      | error err =>
          rw [hc] at he
          by_cases hcond : rateLimited err = true ∧ attempt < MAX_THINKING_RETRIES - 1
          · obtain ⟨h1, h2⟩ := hcond
            simp [h1, h2] at he
            rcases he with rfl | he
            · rfl
            · exact ih (attempt + 1) e he
          · simp [hcond] at he

theorem stepEvents_thinking (steps : List String) :
    ∀ e ∈ (steps.take 6).map Ev.thinking, e.isThinking = true := by
  intro e he
  obtain ⟨s, -, rfl⟩ := List.mem_map.mp he
  rfl

theorem chatThinkingPrefix_thinking (env : ChatEnv) :
    ∀ e ∈ chatThinkingPrefix env, e.isThinking = true := by
  intro e he
  simp only [chatThinkingPrefix, List.append_assoc, List.mem_append] at he
  rcases he with he | he | he | he | he | he | he | he | he
  · exact ackEvents_thinking e he
  · exact normStep_thinking env e he
  · simp only [List.mem_singleton] at he; subst he; rfl
  · exact embedStep_thinking env e he
  · simp only [List.mem_singleton] at he; subst he; rfl
  · simp only [List.mem_singleton] at he; subst he; rfl
  · exact selectStep_thinking _ _ e he
  · exact loopAux_events_thinking env.thinkingCall _ _ e he
  · exact stepEvents_thinking _ e he

theorem answerEvents_response (env : ChatEnv) :
    ∀ e ∈ answerEvents env, e.isResponse = true := by
  intro e he
  unfold answerEvents at he
  cases ha : env.answer with
  | ok content =>
      rw [ha] at he
      by_cases ht : strTrim content = ""
      · simp [ht] at he
      · simp only [ht, if_false, List.mem_singleton] at he
        subst he
        rfl
  | error err =>
      rw [ha] at he
      simp only [List.mem_singleton] at he
      subst he
      rfl

theorem sourceEvents_source (env : ChatEnv) :
    ∀ e ∈ sourceEvents env, e.isSource = true := by
  intro e he
  obtain ⟨h, -, rfl⟩ := List.mem_map.mp he
  rfl

theorem countP_zero_of_all (l : List Ev) (p q : Ev → Bool)
    (hall : ∀ e ∈ l, p e = true) (hpq : ∀ e, p e = true → q e = false) :
    l.countP q = 0 :=
  List.countP_eq_zero.mpr (fun e he => by simp [hpq e (hall e he)])

theorem thinking_not_done : ∀ e : Ev, e.isThinking = true → e.isDone = false := by
  intro e h
  cases e <;> simp_all [Ev.isThinking, Ev.isDone]

theorem response_not_done : ∀ e : Ev, e.isResponse = true → e.isDone = false := by
  intro e h
  cases e <;> simp_all [Ev.isResponse, Ev.isDone]

theorem source_not_done : ∀ e : Ev, e.isSource = true → e.isDone = false := by
  intro e h
  cases e <;> simp_all [Ev.isSource, Ev.isDone]

/- ─────────────────────────────── C3 ────────────────────────────────── -/

/-- C3: every run of the chat pipeline, whatever the outcome of each step,
emits a stream of the shape: a run of `thinking` events, then a run of
`response` events, then a run of `source` events, then the terminal `done`
event; and `done` occurs exactly once in the whole stream. -/
theorem chat_event_order (env : ChatEnv) (c : RequestCounter) :
    ∃ T R S : List Ev,
      (chatRun env c).events = T ++ R ++ S ++ [Ev.done]
      ∧ (∀ e ∈ T, e.isThinking = true)
      ∧ (∀ e ∈ R, e.isResponse = true)
      ∧ (∀ e ∈ S, e.isSource = true)
      ∧ (chatRun env c).events.countP Ev.isDone = 1 := by
  refine ⟨chatThinkingPrefix env, answerEvents env, sourceEvents env,
    chatRun_events_decomp env c, chatThinkingPrefix_thinking env,
    answerEvents_response env, sourceEvents_source env, ?_⟩
  rw [chatRun_events_decomp env c]
  simp only [List.countP_append]
  rw [countP_zero_of_all _ Ev.isThinking Ev.isDone
      (chatThinkingPrefix_thinking env) thinking_not_done,
    countP_zero_of_all _ Ev.isResponse Ev.isDone
      (answerEvents_response env) response_not_done,
    countP_zero_of_all _ Ev.isSource Ev.isDone
      (sourceEvents_source env) source_not_done]
  rfl

/- ─────────────── more event-kind disjointness lemmas ───────────────── -/

theorem thinking_not_source : ∀ e : Ev, e.isThinking = true → e.isSource = false := by
  intro e h
  cases e <;> simp_all [Ev.isThinking, Ev.isSource]

theorem thinking_not_response : ∀ e : Ev, e.isThinking = true → e.isResponse = false := by
  intro e h
  cases e <;> simp_all [Ev.isThinking, Ev.isResponse]

theorem thinking_not_fallback : ∀ e : Ev, e.isThinking = true → e.isFallbackResponse = false := by
  intro e h
  cases e <;> simp_all [Ev.isThinking, Ev.isFallbackResponse]

theorem source_not_response : ∀ e : Ev, e.isSource = true → e.isResponse = false := by
  intro e h
  cases e <;> simp_all [Ev.isSource, Ev.isResponse]

theorem source_not_fallback : ∀ e : Ev, e.isSource = true → e.isFallbackResponse = false := by
  intro e h
  cases e <;> simp_all [Ev.isSource, Ev.isFallbackResponse]

theorem search_nil (q : List ℝ) (k : ℕ) : search [] q k = [] := by
  simp [search]

theorem ragResults_of_empty_store (env : ChatEnv) (h : env.store = []) :
    ragResults env = [] := by
  unfold ragResults
  by_cases hf : env.searchFails
  · simp [hf]
  · simp [hf, h, search_nil]

/- ─────────────────────────────── C6 ────────────────────────────────── -/

/-- Counterexample to C6 as stated: a run against an empty store in which
the final-answer call succeeds emits zero fallback `response` events (it
emits the provider's own answer), so an empty store does not by itself
force exactly one fallback response. -/
theorem scenarioA_fallback_counterexample :
    envA.store = []
    ∧ (chatRun envA ⟨0, 0⟩).events.countP Ev.isFallbackResponse = 0
    ∧ (chatRun envA ⟨0, 0⟩).events.countP Ev.isResponse = 1 := by
  have hrag : ragResults envA = [] := ragResults_of_empty_store envA rfl
  have hsrc : sourceEvents envA = [] := by simp [sourceEvents, hrag]
  have ht : ¬ (strTrim "Based on the symptoms described, here is an answer." = "") := by decide
  have hansw : answerEvents envA
      = [Ev.response "Based on the symptoms described, here is an answer."] := by
    simp [answerEvents, envA, ht]
  refine ⟨rfl, ?_, ?_⟩
  · rw [chatRun_events_decomp, hansw, hsrc]
    simp only [List.countP_append,
      countP_zero_of_all _ Ev.isThinking Ev.isFallbackResponse
        (chatThinkingPrefix_thinking envA) thinking_not_fallback]
    decide
  · rw [chatRun_events_decomp, hansw, hsrc]
    simp only [List.countP_append,
      countP_zero_of_all _ Ev.isThinking Ev.isResponse
        (chatThinkingPrefix_thinking envA) thinking_not_response]
    decide

/-- C6 (amended): for a pipeline run against an empty vector store *whose
final-answer call fails*, the stream has at least one `thinking` event,
zero `source` events, exactly one `response` event — the fixed fallback —
and exactly one `done` event.  (The amendment is forced: with an empty
store but a successful answer call the single response is the provider's
content, not the fallback.) -/
theorem scenarioA_empty_store_answer_failure (env : ChatEnv) (c : RequestCounter)
    (e : GemErr) (hstore : env.store = []) (hans : env.answer = .error e) :
    1 ≤ (chatRun env c).events.countP Ev.isThinking
    ∧ (chatRun env c).events.countP Ev.isSource = 0
    ∧ (chatRun env c).events.countP Ev.isResponse = 1
    ∧ (chatRun env c).events.countP Ev.isFallbackResponse = 1
    ∧ (chatRun env c).events.countP Ev.isDone = 1 := by
  have hrag : ragResults env = [] := ragResults_of_empty_store env hstore
  have hsrc : sourceEvents env = [] := by simp [sourceEvents, hrag]
  have hansw : answerEvents env = [Ev.response fallbackAnswer] := by
    simp [answerEvents, hans]
  refine ⟨?_, ?_, ?_, ?_, ?_⟩
  · rw [chatRun_events_decomp, hansw, hsrc]
    simp only [chatThinkingPrefix, List.append_assoc, List.countP_append]
    have hack : List.countP Ev.isThinking ackEvents = 2 := rfl
    rw [hack]
    omega
  · rw [chatRun_events_decomp, hansw, hsrc]
    simp only [List.countP_append,
      countP_zero_of_all _ Ev.isThinking Ev.isSource
        (chatThinkingPrefix_thinking env) thinking_not_source]
    decide
  · rw [chatRun_events_decomp, hansw, hsrc]
    simp only [List.countP_append,
      countP_zero_of_all _ Ev.isThinking Ev.isResponse
        (chatThinkingPrefix_thinking env) thinking_not_response]
    decide
  · rw [chatRun_events_decomp, hansw, hsrc]
    simp only [List.countP_append,
      countP_zero_of_all _ Ev.isThinking Ev.isFallbackResponse
        (chatThinkingPrefix_thinking env) thinking_not_fallback]
    decide
  · rw [chatRun_events_decomp, hansw, hsrc]
    simp only [List.countP_append,
      countP_zero_of_all _ Ev.isThinking Ev.isDone
        (chatThinkingPrefix_thinking env) thinking_not_done]
    decide

/-- Witness for the amended C6 at a concrete empty-store environment whose
answer call fails. -/
theorem scenarioA_empty_store_witness :
    envAFail.store = []
    ∧ envAFail.answer = .error ⟨"Gemini error 503"⟩
    ∧ (1 ≤ (chatRun envAFail ⟨0, 0⟩).events.countP Ev.isThinking
       ∧ (chatRun envAFail ⟨0, 0⟩).events.countP Ev.isSource = 0
       ∧ (chatRun envAFail ⟨0, 0⟩).events.countP Ev.isResponse = 1
       ∧ (chatRun envAFail ⟨0, 0⟩).events.countP Ev.isFallbackResponse = 1
       ∧ (chatRun envAFail ⟨0, 0⟩).events.countP Ev.isDone = 1) :=
  ⟨rfl, rfl,
   scenarioA_empty_store_answer_failure envAFail ⟨0, 0⟩ ⟨"Gemini error 503"⟩ rfl rfl⟩

/- ─────────────────────────────── C8 ────────────────────────────────── -/

/-- Counterexample to C8 as stated: a run that makes 3 Gemini provider
calls (normalization, one narration attempt, the final answer) increases
the shared counter's total by exactly 1, not by 3 — the handler logs once
per run, not once per provider call. -/
theorem counter_per_call_counterexample :
    (chatRun envA ⟨0, 0⟩).geminiCalls = 3
    ∧ (chatRun envA ⟨0, 0⟩).counter.total_requests
        = RequestCounter.total_requests ⟨0, 0⟩ + 1
    ∧ (3 : ℕ) ≠ 1 := by
  have hrag : ragResults envA = [] := ragResults_of_empty_store envA rfl
  have hrl : rateLimited ⟨"Gemini error 500"⟩ = false := by decide
  have hloop : (thinkingLoop envA.thinkingCall).attempts = 1 := by
    simp [thinkingLoop, thinkingLoopAux, envA, hrl]
  refine ⟨?_, ?_, by decide⟩
  · simp [chatRun, hrag, hloop]
  · simp [chatRun, RequestCounter.log_chat_request, RequestCounter.total_requests]

/-- C8 (amended): every pipeline run increments the shared request
counter's chat count by exactly one — a single infallible
`log_chat_request` before the narration step — regardless of how many
provider calls the run makes; the embedding count is untouched, so the
total rises by exactly 1 per run, and the atomic counter update cannot
fail or block the pipeline. -/
theorem counter_once_per_run (env : ChatEnv) (c : RequestCounter) :
    (chatRun env c).counter.chat_count = c.chat_count + 1
    ∧ (chatRun env c).counter.embedding_count = c.embedding_count
    ∧ (chatRun env c).counter.total_requests = c.total_requests + 1 := by
  refine ⟨?_, ?_, ?_⟩
  · simp [chatRun, RequestCounter.log_chat_request]
  · simp [chatRun, RequestCounter.log_chat_request]
  · simp only [chatRun, RequestCounter.log_chat_request, RequestCounter.total_requests]
    omega

/- ─────────────────────────────── C10 ───────────────────────────────── -/

/-- C10: if the final-answer call succeeds but its content trims to empty,
the run emits no `response` event at all — neither the content nor the
apologetic fallback — and the stream still continues with the `source`
events and the terminal `done`; the apologetic response is emitted exactly
when the answer call fails, and a successful call emits either nothing or
its own content. -/
theorem empty_answer_no_response :
    (∀ (env : ChatEnv) (c : RequestCounter) (content : String),
        env.answer = .ok content → strTrim content = "" →
        (chatRun env c).events.countP Ev.isResponse = 0
        ∧ (chatRun env c).events
            = chatThinkingPrefix env ++ sourceEvents env ++ [Ev.done])
    ∧ (∀ (env : ChatEnv) (e : GemErr), env.answer = .error e →
        answerEvents env = [Ev.response fallbackAnswer])
    ∧ (∀ (env : ChatEnv) (content : String), env.answer = .ok content →
        answerEvents env = [] ∨ answerEvents env = [Ev.response content]) := by
  refine ⟨?_, ?_, ?_⟩
  · intro env c content hok hempty
    have hansw : answerEvents env = [] := by simp [answerEvents, hok, hempty]
    constructor
    · rw [chatRun_events_decomp, hansw]
      simp only [List.countP_append,
        countP_zero_of_all _ Ev.isThinking Ev.isResponse
          (chatThinkingPrefix_thinking env) thinking_not_response,
        countP_zero_of_all _ Ev.isSource Ev.isResponse
          (sourceEvents_source env) source_not_response]
      decide
    · rw [chatRun_events_decomp, hansw]
      simp
  · intro env e hans
    simp [answerEvents, hans]
  · intro env content hok
    by_cases ht : strTrim content = ""
    · exact Or.inl (by simp [answerEvents, hok, ht])
    · exact Or.inr (by simp [answerEvents, hok, ht])

/-- Witness for C10 at a concrete environment whose answer call succeeds
with whitespace-only content. -/
theorem empty_answer_no_response_witness :
    envWS.answer = .ok "   "
    ∧ strTrim "   " = ""
    ∧ (chatRun envWS ⟨0, 0⟩).events.countP Ev.isResponse = 0
    ∧ (chatRun envWS ⟨0, 0⟩).events
        = chatThinkingPrefix envWS ++ sourceEvents envWS ++ [Ev.done] :=
  ⟨rfl, by decide,
   (empty_answer_no_response.1 envWS ⟨0, 0⟩ "   " rfl (by decide)).1,
   (empty_answer_no_response.1 envWS ⟨0, 0⟩ "   " rfl (by decide)).2⟩
